import Mathlib

/-!
Verification of the authenticating HTTP client, call wrapper and tool layer
of the cdq-mcp server (`src/server.py`).

The Python code is shallowly embedded: JSON values are an inductive type,
Python exceptions are a `PyExc` inductive, and every interaction with the
`requests` library is represented by an oracle value (`ReqOutcome`) supplied
as an explicit argument — one oracle per HTTP call the straight-line code can
possibly issue.  Stateful methods of `DQClient` become functions from the
client record (plus oracles) to a new client record together with either a
normal result or a raised exception.
-/

namespace CdqMcp

/-- JSON values, as produced by `response.json()` and consumed by the tools. -/
inductive Json where
  | null : Json
  | bool (b : Bool) : Json
  | num (n : Int) : Json
  | str (s : String) : Json
  | arr (elems : List Json) : Json
  | obj (fields : List (String × Json)) : Json

/-- Python exceptions that can arise in `server.py`.
`reqJsonDecodeError` models `requests.exceptions.JSONDecodeError`, the
exception `response.json()` raises (requests ≥ 2.27); it subclasses both
`requests.exceptions.RequestException` (via `InvalidJSONError`) and
`json.JSONDecodeError`. -/
inductive PyExc where
  | connectionError (msg : String) : PyExc
  | timeout (msg : String) : PyExc
  | httpError (status : Nat) (msg : String) : PyExc
  | requestException (msg : String) : PyExc
  | reqJsonDecodeError (msg : String) : PyExc
  | keyError (key : String) : PyExc
  | typeError (msg : String) : PyExc
  | valueError (msg : String) : PyExc
  | attributeError (msg : String) : PyExc

/-- Membership in `requests.exceptions.ConnectionError`. -/
def PyExc.isConnectionError : PyExc → Bool
  | .connectionError _ => true
  | _ => false

/-- Membership in `requests.exceptions.Timeout`. -/
def PyExc.isTimeout : PyExc → Bool
  | .timeout _ => true
  | _ => false

/-- Membership in `requests.exceptions.RequestException`: connection errors,
timeouts, HTTP errors raised by `raise_for_status`, other request exceptions,
and `requests.exceptions.JSONDecodeError`. -/
def PyExc.isRequestException : PyExc → Bool
  | .connectionError _ => true
  | .timeout _ => true
  | .httpError _ _ => true
  | .requestException _ => true
  | .reqJsonDecodeError _ => true
  | _ => false

/-- Membership in `json.JSONDecodeError`. -/
def PyExc.isJsonDecodeError : PyExc → Bool
  | .reqJsonDecodeError _ => true
  | _ => false

/-- Python `str(e)` for the exceptions above.  For `KeyError` Python prints
the `repr` of the missing key. -/
def PyExc.pyMsg : PyExc → String
  | .connectionError m => m
  | .timeout m => m
  | .httpError _ m => m
  | .requestException m => m
  | .reqJsonDecodeError m => m
  | .keyError k => "'" ++ k ++ "'"
  | .typeError m => m
  | .valueError m => m
  | .attributeError m => m

/-- Python `type(e).__name__`. -/
def PyExc.pyName : PyExc → String
  | .connectionError _ => "ConnectionError"
  | .timeout _ => "Timeout"
  | .httpError _ _ => "HTTPError"
  | .requestException _ => "RequestException"
  | .reqJsonDecodeError _ => "JSONDecodeError"
  | .keyError _ => "KeyError"
  | .typeError _ => "TypeError"
  | .valueError _ => "ValueError"
  | .attributeError _ => "AttributeError"

/-- Python `str()` of a JSON value, used when a value is interpolated into an
f-string or rendered in a table cell.  Container values are given a fixed
placeholder rendering (Python would render element reprs); no claim depends
on the rendering of container cells. -/
def pyStr : Json → String
  | .null => "None"
  | .bool true => "True"
  | .bool false => "False"
  | .num n => toString n
  | .str s => s
  | .arr _ => "[...]"
  | .obj _ => "\x7b...\x7d"

/-- Python truthiness (`if not x`) of a JSON value. -/
def pyFalsy : Json → Bool
  | .null => true
  | .bool b => !b
  | .num n => n == 0
  | .str s => s.isEmpty
  | .arr xs => xs.isEmpty
  | .obj fs => fs.isEmpty

/-- Python subscription `j[k]` with a string key: succeeds only on a dict,
raising `KeyError` for a missing key and `TypeError` on any other value. -/
def pyGetItem (j : Json) (k : String) : Except PyExc Json :=
  match j with
  | .obj fs =>
    match fs.lookup k with
    | some v => Except.ok v
    | none => Except.error (PyExc.keyError k)
  | _ => Except.error (PyExc.typeError "value is not subscriptable by string")

/-- Python iteration `for x in j`: lists yield their elements, dicts their
keys, strings their characters; other values raise `TypeError`. -/
def pyIter (j : Json) : Except PyExc (List Json) :=
  match j with
  | .arr xs => Except.ok xs
  | .obj fs => Except.ok (fs.map (fun p => Json.str p.1))
  | .str s => Except.ok (s.data.map (fun ch => Json.str (String.mk [ch])))
  | _ => Except.error (PyExc.typeError "object is not iterable")

/-- Python string slicing `s[:n]` (by characters). -/
def pyTake (s : String) (n : Nat) : String :=
  String.mk (s.data.take n)

/-- Field lookup on a JSON object (`none` on non-objects). -/
def Json.getField (j : Json) (k : String) : Option Json :=
  match j with
  | .obj fs => fs.lookup k
  | _ => none

/-- An HTTP response as seen through `requests.Response`: status code, body
text, and the outcome `response.json()` would produce (`Except.error m`
when the body is not JSON, in which case `.json()` raises
`requests.exceptions.JSONDecodeError` with message `m`). -/
structure HttpResponse where
  status : Nat
  body : String
  parse : Except String Json

/-- The oracle for one call into the `requests` library: either the call
raises a (transport-level) exception or it returns a response. -/
inductive ReqOutcome where
  | exc (e : PyExc) : ReqOutcome
  | resp (r : HttpResponse) : ReqOutcome

/-- `requests.Response.ok` / `raise_for_status`: a status is an error status
exactly when `400 ≤ status < 600`. -/
def errStatus (s : Nat) : Bool :=
  decide (400 ≤ s ∧ s < 600)

/-- Configuration for DQ API connection (`DQConfig`). -/
structure DQConfig where
  base_url : String
  username : String
  password : String
  iss : String

/-- header name/value pairs -/
abbrev Headers := List (String × String)

/-- The authenticated header set built by `DQClient._authenticate`. -/
def mkHeaders (tok : Json) : Headers :=
  [("Content-Type", "application/json"),
   ("accept", "application/json"),
   ("Authorization", "Bearer " ++ pyStr tok)]

/-- The mutable state of a `DQClient` instance: its config and the
`_token` / `_headers` caches (both `None` initially). -/
structure DQClient where
  config : DQConfig
  token : Option Json
  headers : Option Headers

/-- `DQClient.__init__`. -/
def DQClient.init (cfg : DQConfig) : DQClient :=
  { config := cfg, token := none, headers := none }

/-- The Python value `self._token = token_json['token']` stores, as an
optional: a JSON `null` decodes to the Python literal `None`, which is
indistinguishable from the unauthenticated `None`. -/
def pyOptOfJson : Json → Option Json
  | Json.null => none
  | j => some j

/-- `DQClient._authenticate`, with `o` the oracle for the
`requests.post(base_url + "/auth/signin", ...)` call.  Returns the client
state after the call together with `Except.error e` when the Python code
raises `e`.  Mirrors the source line by line: the POST itself may raise;
`raise_for_status()` raises `HTTPError` on an error status; `.json()` raises
on a non-JSON body; `token_json['token']` raises `KeyError`/`TypeError`;
only after all of these do the two assignments to `_token` and `_headers`
run, so on any raise the state is the state at entry.  A JSON-null token
field raises nothing: `_token` is assigned Python `None`
(`pyOptOfJson Json.null = none`) while `_headers` is still assigned the
non-empty dict with `'Bearer None'` (`mkHeaders Json.null`). -/
def DQClient.authenticate (c : DQClient) (o : ReqOutcome) :
    DQClient × Except PyExc Unit :=
  match o with
  | .exc e => (c, Except.error e)
  | .resp r =>
    if errStatus r.status then
      (c, Except.error (PyExc.httpError r.status
        (toString r.status ++ " Error for url " ++ c.config.base_url ++ "/auth/signin")))
    else
      match r.parse with
      | Except.error m => (c, Except.error (PyExc.reqJsonDecodeError m))
      | Except.ok tj =>
        match pyGetItem tj "token" with
        | Except.error e => (c, Except.error e)
        | Except.ok tok =>
          ({ c with token := pyOptOfJson tok, headers := some (mkHeaders tok) },
           Except.ok ())

/-- One HTTP request as issued by `requests.request(method, url, ...)`,
recording the headers attached to it. -/
structure Attempt where
  method : String
  url : String
  reqHeaders : Headers

/-- Result of `DQClient.request`: the returned response or raised exception,
the client state afterwards, and the list of main-URL requests actually
issued (in order). -/
structure RequestResult where
  outcome : Except PyExc HttpResponse
  client : DQClient
  attempts : List Attempt

/-- The body of `DQClient.request` once headers `h` are in hand: issue the
request (oracle `o1`); if the status is 401, re-authenticate (oracle
`auth2`) and reissue the request once with the fresh headers (oracle `o2`);
otherwise return the response as-is. -/
def DQClient.requestCore (c : DQClient) (h : Headers) (method endpoint : String)
    (o1 auth2 o2 : ReqOutcome) : RequestResult :=
  let url := c.config.base_url ++ endpoint
  match o1 with
  | .exc e => ⟨Except.error e, c, [⟨method, url, h⟩]⟩
  | .resp r =>
    if r.status = 401 then
      match c.authenticate auth2 with
      | (c2, Except.error e) => ⟨Except.error e, c2, [⟨method, url, h⟩]⟩
      | (c2, Except.ok _) =>
        let h2 := c2.headers.getD []
        match o2 with
        | .exc e => ⟨Except.error e, c2, [⟨method, url, h⟩, ⟨method, url, h2⟩]⟩
        | .resp r2 => ⟨Except.ok r2, c2, [⟨method, url, h⟩, ⟨method, url, h2⟩]⟩
    else ⟨Except.ok r, c, [⟨method, url, h⟩]⟩

/-- `DQClient.request`.  `auth1` is the oracle for the lazy sign-in performed
by the `headers` property when `_headers` is `None`; `o1` the oracle for the
first main request; `auth2` for the 401-triggered re-authentication; `o2`
for the retried request.  Oracles for calls the code does not reach are
simply unused. -/
def DQClient.request (c : DQClient) (method endpoint : String)
    (auth1 o1 auth2 o2 : ReqOutcome) : RequestResult :=
  match c.headers with
  | none =>
    match c.authenticate auth1 with
    | (c1, Except.error e) => ⟨Except.error e, c1, []⟩
    | (c1, Except.ok _) =>
      c1.requestCore (c1.headers.getD []) method endpoint o1 auth2 o2
  | some h => c.requestCore h method endpoint o1 auth2 o2

/-- The uniform result dictionary produced by `call_api`:
`Success d` stands for `{"success": True, "data": d}` and
`Failure m` for `{"success": False, "error": m}`. -/
inductive CallResult where
  | success (data : Json) : CallResult
  | failure (error : String) : CallResult

/-- The dictionary a `CallResult` stands for a JSON value. -/
def CallResult.toJson : CallResult → Json
  | .success d => Json.obj [("success", Json.bool true), ("data", d)]
  | .failure m => Json.obj [("success", Json.bool false), ("error", Json.str m)]

/-- The `except` chain of `call_api`, applied in source order to a raised
exception: `ConnectionError`, then `Timeout`, then `RequestException`, then
`json.JSONDecodeError`, then `Exception`.  Because
`requests.exceptions.JSONDecodeError` is a `RequestException`, the third
clause catches it before the fourth is consulted. -/
def classifyExc (e : PyExc) : String :=
  if e.isConnectionError then "Connection error: " ++ e.pyMsg
  else if e.isTimeout then "Request timeout: " ++ e.pyMsg
  else if e.isRequestException then "Request failed: " ++ e.pyMsg
  else if e.isJsonDecodeError then "Invalid JSON response: " ++ e.pyMsg
  else "Unexpected error: " ++ e.pyName ++ ": " ++ e.pyMsg

/-- The `try` body of `call_api` applied to what `client.request` did: an
error status becomes a `Failure` with the status code and the first 500
characters of the body; a JSON body becomes a `Success`; any raised
exception goes through the `except` chain. -/
def callApiOf (r : RequestResult) : CallResult :=
  match r.outcome with
  | Except.error e => CallResult.failure (classifyExc e)
  | Except.ok resp =>
    if errStatus resp.status then
      CallResult.failure
        ("HTTP " ++ toString resp.status ++ ": " ++ pyTake resp.body 500)
    else
      match resp.parse with
      | Except.error m =>
        CallResult.failure (classifyExc (PyExc.reqJsonDecodeError m))
      | Except.ok j => CallResult.success j

/-- `call_api(method, endpoint, **kwargs)`: delegate to `client.request` and
shape the outcome with `callApiOf`.  The total return type embeds the
source's guarantee that every path produces a result dictionary. -/
def call_api (c : DQClient) (method endpoint : String)
    (auth1 o1 auth2 o2 : ReqOutcome) : CallResult × DQClient :=
  let r := DQClient.request c method endpoint auth1 o1 auth2 o2
  (callApiOf r, r.client)

/-!
## Tool layer

Each tool returns a Python string — either `json.dumps` of a dictionary or a
formatted text table.  `ToolOutput.jsonOut j` models returning
`json.dumps(j)`, `ToolOutput.textOut s` returning `s` directly.  Tools whose
body can raise an uncaught exception (e.g. a pandas `ValueError`) return
`Except PyExc ToolOutput`.
-/

/-- A tool's return value: a JSON-dumped dictionary or a plain string. -/
inductive ToolOutput where
  | jsonOut (j : Json) : ToolOutput
  | textOut (s : String) : ToolOutput

/-- Membership in Python's `KeyError`. -/
def PyExc.isKeyError : PyExc → Bool
  | .keyError _ => true
  | _ => false

/-- Membership in Python's `TypeError`. -/
def PyExc.isTypeError : PyExc → Bool
  | .typeError _ => true
  | _ => false

/-- The loop of `[col['name'] for col in cols]`: stops at the first raising
element. -/
def extractNamesList : List Json → Except PyExc (List Json)
  | [] => Except.ok []
  | col :: rest =>
    match pyGetItem col "name" with
    | Except.error e => Except.error e
    | Except.ok v =>
      match extractNamesList rest with
      | Except.error e => Except.error e
      | Except.ok vs => Except.ok (v :: vs)

/-- `[col['name'] for col in json_data['schema']]` in `run_sql`. -/
def extractNames (schema : Json) : Except PyExc (List Json) :=
  match pyIter schema with
  | Except.error e => Except.error e
  | Except.ok cols => extractNamesList cols

/-- The loop of `[item['colValue'] for item in items]`. -/
def extractItemsList : List Json → Except PyExc (List Json)
  | [] => Except.ok []
  | it :: rest =>
    match pyGetItem it "colValue" with
    | Except.error e => Except.error e
    | Except.ok v =>
      match extractItemsList rest with
      | Except.error e => Except.error e
      | Except.ok vs => Except.ok (v :: vs)

/-- `[item['colValue'] for item in row]` in `run_sql`. -/
def extractRow (row : Json) : Except PyExc (List Json) :=
  match pyIter row with
  | Except.error e => Except.error e
  | Except.ok items => extractItemsList items

/-- The row loop of `run_sql` over a list of row values. -/
def extractRowsList : List Json → Except PyExc (List (List Json))
  | [] => Except.ok []
  | row :: rest =>
    match extractRow row with
    | Except.error e => Except.error e
    | Except.ok r =>
      match extractRowsList rest with
      | Except.error e => Except.error e
      | Except.ok rs => Except.ok (r :: rs)

/-- The row-extraction loop of `run_sql` over `json_data['rows']`. -/
def extractRows (rowsJ : Json) : Except PyExc (List (List Json)) :=
  match pyIter rowsJ with
  | Except.error e => Except.error e
  | Except.ok rows => extractRowsList rows

/-- The schema/row extraction prefix of `run_sql`'s success branch, in
source evaluation order. -/
def extractTable (data : Json) : Except PyExc (List Json × List (List Json)) :=
  match pyGetItem data "schema" with
  | Except.error e => Except.error e
  | Except.ok schema =>
    match extractNames schema with
    | Except.error e => Except.error e
    | Except.ok names =>
      match pyGetItem data "rows" with
      | Except.error e => Except.error e
      | Except.ok rowsJ =>
        match extractRows rowsJ with
        | Except.error e => Except.error e
        | Except.ok rows => Except.ok (names, rows)

/-- One line of a 'presto'-format markdown table (pandas
`to_markdown(tablefmt='presto')`): cells joined by `" | "`.  Pandas pads
cells to the column width; the padding is not modelled, the line/row
structure is. -/
def prestoRow (cells : List String) : String :=
  " " ++ String.intercalate " | " cells

/-- The separator line of a 'presto'-format table for `k` columns. -/
def prestoSep (k : Nat) : String :=
  String.intercalate "+" (List.replicate k "---")

/-- `df.to_markdown(index=False, tablefmt='presto')`: a header line, a
separator line, and one line per data row, joined by newlines. -/
def toMarkdownPresto (cols : List String) (rows : List (List String)) : String :=
  String.intercalate "\n" (prestoRow cols :: prestoSep cols.length :: rows.map prestoRow)

/-- The truncation note `run_sql` appends when the frame has more than 10
rows. -/
def truncNote (n : Nat) : String :=
  "\n\n*Showing 10 of " ++ toString n ++ " rows*"

/-- The body of `run_sql` after the `call_api` call (`result` is the
wrapper's result).  On wrapper failure the result dictionary is dumped
unchanged.  On success the schema and rows are extracted; a `KeyError` or
`TypeError` is caught and reported as a "Failed to parse response" failure.
`pd.DataFrame(data_rows, columns=column_names)` is modelled for rectangular
data (every row as long as the column list); on other shapes pandas raises a
`ValueError`, which nothing in `run_sql` catches, so it propagates.
`df.head(10)` keeps the first 10 rows, `len(df)` is the full row count. -/
def run_sql_post (sql : String) (result : CallResult) : Except PyExc ToolOutput :=
  match result with
  | .failure _ => Except.ok (ToolOutput.jsonOut result.toJson)
  | .success data =>
    match extractTable data with
    | Except.error e =>
      if e.isKeyError || e.isTypeError then
        Except.ok (ToolOutput.jsonOut (Json.obj
          [("success", Json.bool false),
           ("error", Json.str ("Failed to parse response: " ++ e.pyMsg))]))
      else Except.error e
    | Except.ok (names, rows) =>
      if rows.all (fun r => r.length = names.length) then
        let colStrs := names.map pyStr
        let rowStrs := rows.map (fun r => r.map pyStr)
        Except.ok (ToolOutput.textOut
          ("Results for: `" ++ sql ++ "`\n\n"
            ++ toMarkdownPresto colStrs (rowStrs.take 10)
            ++ (if 10 < rows.length then truncNote rows.length else "")))
      else Except.error (PyExc.valueError "columns passed, passed data had different shape")

/-- `r.get(k)` on a rule dictionary: `Json.null` (Python `None`) when the
key is absent. -/
def dictGet (fs : List (String × Json)) (k : String) : Json :=
  (fs.lookup k).getD Json.null

/-- The dictionary `get_rules_by_dataset` builds for one rule. -/
def ruleObj (fs : List (String × Json)) : Json :=
  Json.obj [("name", dictGet fs "ruleNm"),
            ("sql", dictGet fs "ruleValue"),
            ("type", dictGet fs "ruleType"),
            ("points", dictGet fs "points")]

/-- `r.get(...)` requires `r` to be a dictionary; on any other value Python
raises `AttributeError`. -/
def formatRule (r : Json) : Except PyExc Json :=
  match r with
  | .obj fs => Except.ok (ruleObj fs)
  | _ => Except.error (PyExc.attributeError "object has no attribute get")

/-- The `for r in rules` loop of `get_rules_by_dataset`. -/
def formatRules : List Json → Except PyExc (List Json)
  | [] => Except.ok []
  | r :: rest =>
    match formatRule r with
    | Except.error e => Except.error e
    | Except.ok f =>
      match formatRules rest with
      | Except.error e => Except.error e
      | Except.ok fs => Except.ok (f :: fs)

/-- The body of `get_rules_by_dataset` after the `call_api` call.  On
wrapper failure the result dictionary is dumped unchanged; an empty (falsy)
rules value yields the success/message dictionary; otherwise each rule is
reshaped by `formatRule` in order. -/
def get_rules_post (dataset : String) (result : CallResult) : Except PyExc ToolOutput :=
  match result with
  | .failure _ => Except.ok (ToolOutput.jsonOut result.toJson)
  | .success data =>
    if pyFalsy data then
      Except.ok (ToolOutput.jsonOut (Json.obj
        [("success", Json.bool true),
         ("message", Json.str ("No rules found for dataset: " ++ dataset))]))
    else
      match pyIter data with
      | Except.error e => Except.error e
      | Except.ok rules =>
        match formatRules rules with
        | Except.error e => Except.error e
        | Except.ok formatted =>
          Except.ok (ToolOutput.jsonOut (Json.obj
            [("success", Json.bool true), ("data", Json.arr formatted)]))

/-- One `call_api` invocation a tool issues: method, endpoint, JSON body
(`Json.null` if none) and query parameters. -/
structure ApiCall where
  method : String
  endpoint : String
  payload : Json
  params : List (String × String)

/-- The dataset-definition body built by `run_dq_job`. -/
def datasetDefPayload (dataset runId sql cxn : String) : Json :=
  Json.obj [("dataset", Json.str dataset),
            ("runId", Json.str runId),
            ("pushdown", Json.obj [("sourceQuery", Json.str sql),
                                   ("connectionName", Json.str cxn)]),
            ("agentId", Json.obj [("id", Json.num 0)]),
            ("profile", Json.obj [("on", Json.bool false)])]

/-- The registration call of `run_dq_job`. -/
def regCall (dataset runId sql cxn : String) : ApiCall :=
  ⟨"PUT", "/v3/datasetDefs", datasetDefPayload dataset runId sql cxn, []⟩

/-- The job-run call of `run_dq_job`. -/
def jobRunCall (dataset runId : String) : ApiCall :=
  ⟨"POST", "/v3/jobs/run", Json.null, [("dataset", dataset), ("runDate", runId)]⟩

/-- `run_dq_job`, over the results the call wrapper would return for the
registration call (`regResult`) and the job-run call (`runResult`).  The
second component records which `call_api` invocations were issued, in
order: on registration failure the tool returns the "Registration failed"
dictionary without ever issuing the job-run call; on success it issues the
job-run call and dumps its result unchanged. -/
def run_dq_job (dataset runId sql cxn : String)
    (regResult runResult : CallResult) : ToolOutput × List ApiCall :=
  match regResult with
  | .failure e =>
    (ToolOutput.jsonOut (Json.obj
      [("success", Json.bool false),
       ("error", Json.str ("Registration failed: " ++ e))]),
     [regCall dataset runId sql cxn])
  | .success _ =>
    (ToolOutput.jsonOut runResult.toJson,
     [regCall dataset runId sql cxn, jobRunCall dataset runId])

/-!
## Helper lemmas about the client state machine
-/

/-- `pyOptOfJson` is `none` only on JSON null. -/
lemma pyOptOfJson_eq_none (t : Json) (h : pyOptOfJson t = none) : t = Json.null := by
  cases t <;> simp [pyOptOfJson] at h ⊢

/-- `_authenticate` either raises leaving the state untouched (every
raising statement precedes the assignments) or returns normally with both
assignments performed on the extracted token (`_token` receiving `None`
when the token field was JSON null). -/
lemma authenticate_spec (c : DQClient) (o : ReqOutcome) :
    (∃ e, c.authenticate o = (c, Except.error e)) ∨
    (∃ tok, c.authenticate o
      = ({ c with token := pyOptOfJson tok, headers := some (mkHeaders tok) },
         Except.ok ())) := by
  unfold DQClient.authenticate
  cases o with
  | exc e => exact Or.inl ⟨e, rfl⟩
  | resp r =>
    dsimp only
    split
    · exact Or.inl ⟨_, rfl⟩
    · split
      · exact Or.inl ⟨_, rfl⟩
      · split
        · exact Or.inl ⟨_, rfl⟩
        · exact Or.inr ⟨_, rfl⟩

/-- `_authenticate` either leaves the state untouched (when it raises) or
performs both assignments from a token. -/
lemma authenticate_state_cases (c : DQClient) (o : ReqOutcome) :
    (c.authenticate o).1 = c ∨
    ∃ tok, (c.authenticate o).1
      = { c with token := pyOptOfJson tok, headers := some (mkHeaders tok) } := by
  rcases authenticate_spec c o with ⟨e, hEq⟩ | ⟨tok, hEq⟩
  · exact Or.inl (by rw [hEq])
  · exact Or.inr ⟨tok, by rw [hEq]⟩

/-- When `_authenticate` raises, the state at exit is the state at entry. -/
lemma authenticate_error_state (c : DQClient) (o : ReqOutcome) (e : PyExc)
    (h : (c.authenticate o).2 = Except.error e) : (c.authenticate o).1 = c := by
  rcases authenticate_spec c o with ⟨e', hEq⟩ | ⟨tok, hEq⟩
  · rw [hEq]
  · rw [hEq] at h
    exact absurd h (by simp)

/-- When `_authenticate` returns normally, both caches were assigned from
the extracted token. -/
lemma authenticate_ok_state (c : DQClient) (o : ReqOutcome) (c2 : DQClient)
    (h : c.authenticate o = (c2, Except.ok ())) :
    ∃ tok, c2 = { c with token := pyOptOfJson tok, headers := some (mkHeaders tok) } := by
  rcases authenticate_spec c o with ⟨e', hEq⟩ | ⟨tok, hEq⟩
  · rw [hEq] at h
    exact absurd (Prod.ext_iff.mp h).2 (by simp)
  · rw [hEq] at h
    exact ⟨tok, ((Prod.ext_iff.mp h).1).symm⟩

/-- `requestCore` mutates the client only through `_authenticate`. -/
lemma requestCore_client_cases (c : DQClient) (h : Headers)
    (method endpoint : String) (o1 auth2 o2 : ReqOutcome) :
    (DQClient.requestCore c h method endpoint o1 auth2 o2).client = c ∨
    ∃ tok, (DQClient.requestCore c h method endpoint o1 auth2 o2).client
      = { c with token := pyOptOfJson tok, headers := some (mkHeaders tok) } := by
  unfold DQClient.requestCore
  cases o1 with
  | exc e => exact Or.inl rfl
  | resp r =>
    dsimp only
    split
    · rcases authenticate_spec c auth2 with ⟨e, hEq⟩ | ⟨tok, hEq⟩
      · rw [hEq]
        exact Or.inl rfl
      · rw [hEq]
        cases o2 with
        | exc e2 => exact Or.inr ⟨tok, rfl⟩
        | resp r2 => exact Or.inr ⟨tok, rfl⟩
    · exact Or.inl rfl

/-- `request` mutates the client only through `_authenticate` (possibly
twice, the second overwrite subsuming the first). -/
lemma request_client_cases (c : DQClient) (method endpoint : String)
    (a1 o1 a2 o2 : ReqOutcome) :
    (DQClient.request c method endpoint a1 o1 a2 o2).client = c ∨
    ∃ tok, (DQClient.request c method endpoint a1 o1 a2 o2).client
      = { c with token := pyOptOfJson tok, headers := some (mkHeaders tok) } := by
  unfold DQClient.request
  rcases hH : c.headers with _ | h
  · rcases authenticate_spec c a1 with ⟨e, hEq⟩ | ⟨tok, hEq⟩
    · rw [hEq]
      exact Or.inl rfl
    · rw [hEq]
      rcases requestCore_client_cases
        { c with token := pyOptOfJson tok, headers := some (mkHeaders tok) }
        ({ c with token := pyOptOfJson tok, headers := some (mkHeaders tok) }.headers.getD [])
        method endpoint o1 a2 o2 with h2 | ⟨tok2, h2⟩
      · rw [h2]
        exact Or.inr ⟨tok, rfl⟩
      · rw [h2]
        exact Or.inr ⟨tok2, rfl⟩
  · exact requestCore_client_cases c h method endpoint o1 a2 o2

/-- The states a single `DQClient` instance can reach: its initial state,
closed under `_authenticate` (also reached through the `headers` property)
and `request` (which subsumes `get`/`post`/`put` and the use inside
`call_api`). -/
inductive Reachable : DQClient → Prop
  | init (cfg : DQConfig) : Reachable (DQClient.init cfg)
  | auth (c : DQClient) (o : ReqOutcome) :
      Reachable c → Reachable (c.authenticate o).1
  | req (c : DQClient) (method endpoint : String) (a1 o1 a2 o2 : ReqOutcome) :
      Reachable c → Reachable (DQClient.request c method endpoint a1 o1 a2 o2).client

/-!
## Concrete fixtures used by the witness theorems
-/

/-- A concrete connection configuration. -/
def cfgX : DQConfig := ⟨"https://dq.example.com", "user", "pass", "issuer"⟩

/-- A concrete cached token. -/
def tokX : Json := Json.str "abc"

/-- A concrete authenticated client (token and headers cached). -/
def cAuthX : DQClient := ⟨cfgX, some tokX, some (mkHeaders tokX)⟩

/-- An oracle for calls the control flow never reaches. -/
def oU : ReqOutcome := ReqOutcome.exc (PyExc.requestException "unreachable oracle")

/-- A successful sign-in response carrying a fresh token. -/
def signinOkX : ReqOutcome :=
  ReqOutcome.resp ⟨200, "tokenbody", Except.ok (Json.obj [("token", Json.str "fresh")])⟩

/-- The client state after re-authenticating with `signinOkX`. -/
def cFreshX : DQClient :=
  ⟨cfgX, some (Json.str "fresh"), some (mkHeaders (Json.str "fresh"))⟩

/-- A 200 sign-in response whose token field is JSON null. -/
def signinNullX : ReqOutcome :=
  ReqOutcome.resp ⟨200, "nulltoken", Except.ok (Json.obj [("token", Json.null)])⟩

/-- A 401 response. -/
def resp401X : HttpResponse := ⟨401, "unauthorized", Except.error "Expecting value"⟩

/-- A second 401 response, distinguishable from the first. -/
def resp401bX : HttpResponse := ⟨401, "still unauthorized", Except.error "Expecting value"⟩

/-- A 500 response. -/
def resp500X : HttpResponse := ⟨500, "internal server error", Except.error "Expecting value"⟩

/-- A 200 response with a JSON body. -/
def respOkX : HttpResponse := ⟨200, "[]", Except.ok (Json.arr [])⟩

/-- A 200 response whose body is not JSON. -/
def respNonJsonX : HttpResponse :=
  ⟨200, "<html>not json</html>", Except.error "Expecting value: line 1 column 1 (char 0)"⟩

/-!
## Claims
-/

/-- Claim C1: for every method, endpoint and options, and every behaviour of
the underlying client (HTTP error status, connection refused, timeout,
non-JSON body, any other exception), `call_api` never raises: its result is
a total function of the oracles, and every code path yields a dictionary of
the form `{"success": true, "data": ...}` or
`{"success": false, "error": <message>}`. -/
theorem call_api_result_shape (c : DQClient) (method endpoint : String)
    (auth1 o1 auth2 o2 : ReqOutcome) :
    (∃ d, (call_api c method endpoint auth1 o1 auth2 o2).1.toJson
        = Json.obj [("success", Json.bool true), ("data", d)]) ∨
    (∃ m, (call_api c method endpoint auth1 o1 auth2 o2).1.toJson
        = Json.obj [("success", Json.bool false), ("error", Json.str m)]) := by
  cases h : (call_api c method endpoint auth1 o1 auth2 o2).1 with
  | success d => exact Or.inl ⟨d, rfl⟩
  | failure m => exact Or.inr ⟨m, rfl⟩

/-- Witness for C1 at a concrete client and oracle set. -/
theorem call_api_result_shape_witness :
    (∃ d, (call_api cAuthX "GET" "/v2/getrecentruns" oU (ReqOutcome.resp respOkX) oU oU).1.toJson
        = Json.obj [("success", Json.bool true), ("data", d)]) ∨
    (∃ m, (call_api cAuthX "GET" "/v2/getrecentruns" oU (ReqOutcome.resp respOkX) oU oU).1.toJson
        = Json.obj [("success", Json.bool false), ("error", Json.str m)]) :=
  call_api_result_shape cAuthX "GET" "/v2/getrecentruns" oU (ReqOutcome.resp respOkX) oU oU

/-- Claim C5: if the sign-in performed by an unauthenticated client fails
(transport failure, non-2xx status, or a body lacking the token field — all
the cases in which `_authenticate` raises), the error propagates to the
caller of `_authenticate`/`request`, and the client stays unauthenticated
with no partially-set token or headers. -/
theorem signin_failure_propagates_no_partial_state (cfg : DQConfig)
    (o : ReqOutcome) (e : PyExc) (method endpoint : String) (o1 a2 o2 : ReqOutcome)
    (h : ((DQClient.init cfg).authenticate o).2 = Except.error e) :
    ((DQClient.init cfg).authenticate o).1 = DQClient.init cfg
    ∧ (DQClient.request (DQClient.init cfg) method endpoint o o1 a2 o2).outcome
        = Except.error e
    ∧ (DQClient.request (DQClient.init cfg) method endpoint o o1 a2 o2).client
        = DQClient.init cfg
    ∧ (DQClient.request (DQClient.init cfg) method endpoint o o1 a2 o2).attempts = [] := by
  rcases authenticate_spec (DQClient.init cfg) o with ⟨e', hEq⟩ | ⟨tok, hEq⟩
  · have he : e' = e := by
      rw [hEq] at h
      simpa using h
    subst he
    refine ⟨by rw [hEq], ?_, ?_, ?_⟩ <;>
      · unfold DQClient.request
        rw [show (DQClient.init cfg).headers = none from rfl, hEq]
  · rw [hEq] at h
    exact absurd h (by simp)

/-- Witness for C5: a connection-refused sign-in. -/
theorem signin_failure_propagates_no_partial_state_witness :
    ((DQClient.init cfgX).authenticate
        (ReqOutcome.exc (PyExc.connectionError "refused"))).1 = DQClient.init cfgX
    ∧ (DQClient.request (DQClient.init cfgX) "GET" "/v2/getrecentruns"
        (ReqOutcome.exc (PyExc.connectionError "refused")) oU oU oU).outcome
        = Except.error (PyExc.connectionError "refused")
    ∧ (DQClient.request (DQClient.init cfgX) "GET" "/v2/getrecentruns"
        (ReqOutcome.exc (PyExc.connectionError "refused")) oU oU oU).client
        = DQClient.init cfgX
    ∧ (DQClient.request (DQClient.init cfgX) "GET" "/v2/getrecentruns"
        (ReqOutcome.exc (PyExc.connectionError "refused")) oU oU oU).attempts = [] :=
  signin_failure_propagates_no_partial_state cfgX
    (ReqOutcome.exc (PyExc.connectionError "refused"))
    (PyExc.connectionError "refused") "GET" "/v2/getrecentruns" oU oU oU rfl

/-- Claim C6: whenever the final response of the underlying request has an
error status, `call_api` returns a `Failure` whose message carries the
status code and the first 500 characters of the body (an excerpt of at most
500 characters), and never a `Success`. -/
theorem call_api_http_error_failure (c : DQClient) (method endpoint : String)
    (a1 o1 a2 o2 : ReqOutcome) (resp : HttpResponse)
    (hresp : (DQClient.request c method endpoint a1 o1 a2 o2).outcome = Except.ok resp)
    (hbad : errStatus resp.status = true) :
    (call_api c method endpoint a1 o1 a2 o2).1
      = CallResult.failure ("HTTP " ++ toString resp.status ++ ": " ++ pyTake resp.body 500)
    ∧ (pyTake resp.body 500).length ≤ 500
    ∧ ∀ d, (call_api c method endpoint a1 o1 a2 o2).1 ≠ CallResult.success d := by
  have h1 : (call_api c method endpoint a1 o1 a2 o2).1
      = CallResult.failure ("HTTP " ++ toString resp.status ++ ": " ++ pyTake resp.body 500) := by
    show callApiOf (DQClient.request c method endpoint a1 o1 a2 o2) = _
    unfold callApiOf
    rw [hresp]
    simp only [if_pos hbad]
  refine ⟨h1, ?_, ?_⟩
  · have : (pyTake resp.body 500).length = (resp.body.data.take 500).length := rfl
    rw [this, List.length_take]
    exact Nat.min_le_left _ _
  · intro d hd
    rw [h1] at hd
    exact CallResult.noConfusion hd

/-- Witness for C6: a 500 response on an authenticated client. -/
theorem call_api_http_error_failure_witness :
    (call_api cAuthX "GET" "/v2/getrecentruns" oU (ReqOutcome.resp resp500X) oU oU).1
      = CallResult.failure
          ("HTTP " ++ toString resp500X.status ++ ": " ++ pyTake resp500X.body 500)
    ∧ (pyTake resp500X.body 500).length ≤ 500
    ∧ ∀ d, (call_api cAuthX "GET" "/v2/getrecentruns" oU (ReqOutcome.resp resp500X) oU oU).1
        ≠ CallResult.success d :=
  call_api_http_error_failure cAuthX "GET" "/v2/getrecentruns" oU
    (ReqOutcome.resp resp500X) oU oU resp500X rfl rfl

/-- `requestCore` issues at most two requests, and issues a second one only
when the first oracle returned a 401 response. -/
lemma requestCore_attempts (c : DQClient) (h : Headers) (method endpoint : String)
    (o1 auth2 o2 : ReqOutcome) :
    (DQClient.requestCore c h method endpoint o1 auth2 o2).attempts.length ≤ 2
    ∧ ((DQClient.requestCore c h method endpoint o1 auth2 o2).attempts.length = 2 →
        ∃ r1, o1 = ReqOutcome.resp r1 ∧ r1.status = 401) := by
  unfold DQClient.requestCore
  cases o1 with
  | exc e => exact ⟨by simp, by simp⟩
  | resp r =>
    dsimp only
    split
    · rcases authenticate_spec c auth2 with ⟨e, hEq⟩ | ⟨tok, hEq⟩ <;> rw [hEq]
      · exact ⟨by simp, by simp⟩
      · cases o2 with
        | exc e2 => exact ⟨by simp, fun _ => ⟨r, rfl, by assumption⟩⟩
        | resp r2 => exact ⟨by simp, fun _ => ⟨r, rfl, by assumption⟩⟩
    · exact ⟨by simp, by simp⟩

/-- Claim C2: through `DQClient.request` at most one automatic retry occurs,
and only when the first response has status 401; on a 401 with a successful
re-authentication the original request is reissued exactly once with the
fresh headers, and whatever the retried request returns (in particular a
second 401) is returned to the caller unmodified — a third attempt never
happens. -/
theorem request_single_retry_on_401 (c : DQClient) (method endpoint : String)
    (auth1 o1 auth2 o2 : ReqOutcome) (R : RequestResult)
    (hR : DQClient.request c method endpoint auth1 o1 auth2 o2 = R) :
    R.attempts.length ≤ 2
    ∧ (R.attempts.length = 2 → ∃ r1, o1 = ReqOutcome.resp r1 ∧ r1.status = 401)
    ∧ (∀ h r1 c2 r2, c.headers = some h → o1 = ReqOutcome.resp r1 →
        r1.status = 401 → c.authenticate auth2 = (c2, Except.ok ()) →
        o2 = ReqOutcome.resp r2 →
        R.outcome = Except.ok r2
        ∧ ∃ tok, c2.headers = some (mkHeaders tok)
            ∧ R.attempts = [⟨method, c.config.base_url ++ endpoint, h⟩,
                            ⟨method, c.config.base_url ++ endpoint, mkHeaders tok⟩]) := by
  subst hR
  refine ⟨?_, ?_, ?_⟩
  · unfold DQClient.request
    rcases hH : c.headers with _ | h
    · rcases authenticate_spec c auth1 with ⟨e, hEq⟩ | ⟨tok, hEq⟩ <;> rw [hEq]
      · simp
      · exact (requestCore_attempts _ _ method endpoint o1 auth2 o2).1
    · exact (requestCore_attempts _ _ method endpoint o1 auth2 o2).1
  · unfold DQClient.request
    rcases hH : c.headers with _ | h
    · rcases authenticate_spec c auth1 with ⟨e, hEq⟩ | ⟨tok, hEq⟩ <;> rw [hEq]
      · simp
      · exact (requestCore_attempts _ _ method endpoint o1 auth2 o2).2
    · exact (requestCore_attempts _ _ method endpoint o1 auth2 o2).2
  · intro h r1 c2 r2 hh ho1 h401 hA ho2
    subst ho1
    subst ho2
    obtain ⟨tok, hc2⟩ := authenticate_ok_state c auth2 c2 hA
    unfold DQClient.request
    rw [hh]
    unfold DQClient.requestCore
    dsimp only
    rw [if_pos h401, hA]
    subst hc2
    exact ⟨rfl, tok, rfl, rfl⟩

/-- Witness for C2: an authenticated client gets a 401, re-authenticates
successfully, retries once with the fresh token, and the second 401 is
returned as-is. -/
theorem request_single_retry_on_401_witness :
    (DQClient.request cAuthX "GET" "/v2/getrecentruns" oU (ReqOutcome.resp resp401X)
        signinOkX (ReqOutcome.resp resp401bX)).attempts.length ≤ 2
    ∧ ((DQClient.request cAuthX "GET" "/v2/getrecentruns" oU (ReqOutcome.resp resp401X)
        signinOkX (ReqOutcome.resp resp401bX)).outcome = Except.ok resp401bX
      ∧ ∃ tok, cFreshX.headers = some (mkHeaders tok)
          ∧ (DQClient.request cAuthX "GET" "/v2/getrecentruns" oU (ReqOutcome.resp resp401X)
              signinOkX (ReqOutcome.resp resp401bX)).attempts
            = [⟨"GET", cAuthX.config.base_url ++ "/v2/getrecentruns", mkHeaders tokX⟩,
               ⟨"GET", cAuthX.config.base_url ++ "/v2/getrecentruns", mkHeaders tok⟩]) := by
  obtain ⟨h1, h2, h3⟩ := request_single_retry_on_401 cAuthX "GET" "/v2/getrecentruns"
    oU (ReqOutcome.resp resp401X) signinOkX (ReqOutcome.resp resp401bX) _ rfl
  exact ⟨h1, h3 (mkHeaders tokX) resp401X cFreshX resp401bX rfl rfl rfl rfl rfl⟩

/-- Claim C9 (refuting theorem): a 401-triggered re-authentication whose
sign-in body is `{"token": null}` resets `_token` to Python `None`
(server.py line 62 assigns the decoded field) while `_headers` stays set —
so an authenticated client's token IS reset to `None` by an operation,
contradicting the claim as stated. -/
theorem reauth_null_token_resets_token :
    cAuthX.token = some tokX
    ∧ (DQClient.request cAuthX "GET" "/v2/getrecentruns" oU (ReqOutcome.resp resp401X)
        signinNullX (ReqOutcome.resp respOkX)).client.token = none
    ∧ (DQClient.request cAuthX "GET" "/v2/getrecentruns" oU (ReqOutcome.resp resp401X)
        signinNullX (ReqOutcome.resp respOkX)).client.headers
      = some (mkHeaders Json.null) :=
  ⟨rfl, rfl, rfl⟩

/-- Claim C9 (amended): once a client is authenticated, its cached headers
are never reset to `None`; the cached token is reset to `None` only by a
sign-in whose response body carries a JSON-null token field, and in that
case the headers remain set to the Bearer-None header set; and when a
401-triggered re-authentication fails, the exception propagates out of
`request` while the previously cached token and headers remain in place. -/
theorem authenticated_headers_never_cleared (c : DQClient) (tok : Json) (hs : Headers)
    (method endpoint : String) (a1 o1 a2 o2 : ReqOutcome)
    (htok : c.token = some tok) (hh : c.headers = some hs) :
    (∀ o, (c.authenticate o).1.headers ≠ none
        ∧ ((c.authenticate o).1.token = none →
            (c.authenticate o).1.headers = some (mkHeaders Json.null)))
    ∧ (DQClient.request c method endpoint a1 o1 a2 o2).client.headers ≠ none
    ∧ ((DQClient.request c method endpoint a1 o1 a2 o2).client.token = none →
        (DQClient.request c method endpoint a1 o1 a2 o2).client.headers
          = some (mkHeaders Json.null))
    ∧ (∀ r1 e, o1 = ReqOutcome.resp r1 → r1.status = 401 →
        (c.authenticate a2).2 = Except.error e →
        (DQClient.request c method endpoint a1 o1 a2 o2).outcome = Except.error e
        ∧ (DQClient.request c method endpoint a1 o1 a2 o2).client = c) := by
  refine ⟨?_, ?_, ?_, ?_⟩
  · intro o
    rcases authenticate_state_cases c o with h1 | ⟨t2, h1⟩ <;> rw [h1]
    · refine ⟨by simp [hh], ?_⟩
      intro hEq
      rw [htok] at hEq
      exact absurd hEq (by simp)
    · refine ⟨by simp, ?_⟩
      intro hEq
      have ht : t2 = Json.null := pyOptOfJson_eq_none t2 hEq
      subst ht
      rfl
  · rcases request_client_cases c method endpoint a1 o1 a2 o2 with h1 | ⟨t2, h1⟩ <;>
      rw [h1]
    · simp [hh]
    · simp
  · rcases request_client_cases c method endpoint a1 o1 a2 o2 with h1 | ⟨t2, h1⟩ <;>
      rw [h1]
    · intro hEq
      rw [htok] at hEq
      exact absurd hEq (by simp)
    · intro hEq
      have ht : t2 = Json.null := pyOptOfJson_eq_none t2 hEq
      subst ht
      rfl
  · intro r1 e ho1 h401 hErr
    have hA : c.authenticate a2 = (c, Except.error e) := by
      rcases authenticate_spec c a2 with ⟨e2, hEq⟩ | ⟨t2, hEq⟩
      · rw [hEq] at hErr ⊢
        have he : e2 = e := by simpa using hErr
        rw [he]
      · rw [hEq] at hErr
        exact absurd hErr (by simp)
    subst ho1
    unfold DQClient.request
    rw [hh]
    unfold DQClient.requestCore
    dsimp only
    rw [if_pos h401, hA]
    exact ⟨rfl, rfl⟩

/-- Witness for C9 (amended): a 401 followed by a connection-refused
re-authentication leaves the cached token and headers in place and
propagates the error. -/
theorem authenticated_headers_never_cleared_witness :
    (∀ o, (cAuthX.authenticate o).1.headers ≠ none
        ∧ ((cAuthX.authenticate o).1.token = none →
            (cAuthX.authenticate o).1.headers = some (mkHeaders Json.null)))
    ∧ (DQClient.request cAuthX "GET" "/v2/getrecentruns" oU (ReqOutcome.resp resp401X)
        (ReqOutcome.exc (PyExc.connectionError "down")) oU).client.headers ≠ none
    ∧ ((DQClient.request cAuthX "GET" "/v2/getrecentruns" oU (ReqOutcome.resp resp401X)
        (ReqOutcome.exc (PyExc.connectionError "down")) oU).client.token = none →
        (DQClient.request cAuthX "GET" "/v2/getrecentruns" oU (ReqOutcome.resp resp401X)
            (ReqOutcome.exc (PyExc.connectionError "down")) oU).client.headers
          = some (mkHeaders Json.null))
    ∧ (∀ r1 e, ReqOutcome.resp resp401X = ReqOutcome.resp r1 → r1.status = 401 →
        (cAuthX.authenticate (ReqOutcome.exc (PyExc.connectionError "down"))).2
          = Except.error e →
        (DQClient.request cAuthX "GET" "/v2/getrecentruns" oU (ReqOutcome.resp resp401X)
            (ReqOutcome.exc (PyExc.connectionError "down")) oU).outcome = Except.error e
        ∧ (DQClient.request cAuthX "GET" "/v2/getrecentruns" oU (ReqOutcome.resp resp401X)
            (ReqOutcome.exc (PyExc.connectionError "down")) oU).client = cAuthX) :=
  authenticated_headers_never_cleared cAuthX tokX (mkHeaders tokX)
    "GET" "/v2/getrecentruns" oU (ReqOutcome.resp resp401X)
    (ReqOutcome.exc (PyExc.connectionError "down")) oU rfl rfl

/-- Claim C4 (refuting theorem): the state reached by a sign-in whose body
is `{"token": null}` (HTTP 200) is a reachable state in which `_token` is
Python `None` while `_headers` is a set, non-empty dict — exactly one of
the two is set, so the both-or-neither biconditional fails. -/
theorem token_headers_desync_reachable :
    Reachable ((DQClient.init cfgX).authenticate signinNullX).1
    ∧ ((DQClient.init cfgX).authenticate signinNullX).1.token = none
    ∧ ((DQClient.init cfgX).authenticate signinNullX).1.headers
        = some (mkHeaders Json.null)
    ∧ ¬((((DQClient.init cfgX).authenticate signinNullX).1.token = none)
        ↔ (((DQClient.init cfgX).authenticate signinNullX).1.headers = none)) :=
  ⟨Reachable.auth _ signinNullX (Reachable.init cfgX), rfl, rfl,
   fun h => Option.noConfusion (h.mp rfl)⟩

/-- Claim C4 (amended): in every reachable state of a `DQClient`, unset
headers imply an unset token (equivalently, a set token implies set
headers), and whenever the headers are set they are non-empty.  The
converse direction fails: a sign-in response whose token field is JSON null
leaves the headers set while the token is `None`. -/
theorem reachable_headers_none_implies_token_none (c : DQClient) (hc : Reachable c) :
    (c.headers = none → c.token = none)
    ∧ ∀ h, c.headers = some h → h ≠ [] := by
  induction hc with
  | init cfg => exact ⟨fun _ => rfl, by simp [DQClient.init]⟩
  | auth c o hr ih =>
    rcases authenticate_state_cases c o with h1 | ⟨tok, h1⟩
    · rw [h1]
      exact ih
    · rw [h1]
      refine ⟨by simp, ?_⟩
      intro h hEq
      have hEq2 : h = mkHeaders tok := by simpa using hEq.symm
      rw [hEq2]
      simp [mkHeaders]
  | req c method endpoint a1 o1 a2 o2 hr ih =>
    rcases request_client_cases c method endpoint a1 o1 a2 o2 with h1 | ⟨tok, h1⟩
    · rw [h1]
      exact ih
    · rw [h1]
      refine ⟨by simp, ?_⟩
      intro h hEq
      have hEq2 : h = mkHeaders tok := by simpa using hEq.symm
      rw [hEq2]
      simp [mkHeaders]

/-- Witness for C4 (amended) at the initial (unauthenticated) state. -/
theorem reachable_headers_none_implies_token_none_witness :
    ((DQClient.init cfgX).headers = none → (DQClient.init cfgX).token = none)
    ∧ ∀ h, (DQClient.init cfgX).headers = some h → h ≠ [] :=
  reachable_headers_none_implies_token_none (DQClient.init cfgX) (Reachable.init cfgX)

/-- Claim C3 (refuting theorem): a success-status response with a non-JSON
body is classified by the `RequestException` clause — the message reads
`Request failed: <parse error>`, in the transport-error category, because
`requests.exceptions.JSONDecodeError` subclasses `RequestException` and the
`except json.JSONDecodeError` clause is listed after it; the message is not
in the json-decode-error category (prefix `Invalid JSON response`). -/
theorem call_api_nonjson_misclassified :
    (call_api cAuthX "GET" "/v2/getrecentruns" oU (ReqOutcome.resp respNonJsonX) oU oU).1
      = CallResult.failure ("Request failed: " ++ "Expecting value: line 1 column 1 (char 0)")
    ∧ ("Request failed: ").data.isPrefixOf
        ("Request failed: " ++ "Expecting value: line 1 column 1 (char 0)").data = true
    ∧ ("Invalid JSON response").data.isPrefixOf
        ("Request failed: " ++ "Expecting value: line 1 column 1 (char 0)").data = false := by
  refine ⟨rfl, by decide, by decide⟩

/-!
## Tool-layer lemmas and claims
-/

/-- The JSON value of a well-formed `/v2/getsqlresult` response whose cell
values are strings: `{"schema": [{"name": c} ...], "rows": [[{"colValue": v} ...] ...]}`. -/
def sqlResultJson (cols : List String) (rows : List (List String)) : Json :=
  Json.obj
    [("schema", Json.arr (cols.map (fun c => Json.obj [("name", Json.str c)]))),
     ("rows", Json.arr (rows.map
        (fun r => Json.arr (r.map (fun v => Json.obj [("colValue", Json.str v)])))))]

/-- Extracting the column names of a well-formed schema list. -/
lemma extractNamesList_wf (cols : List String) :
    extractNamesList (cols.map (fun c => Json.obj [("name", Json.str c)]))
      = Except.ok (cols.map Json.str) := by
  induction cols with
  | nil => rfl
  | cons c rest ih =>
    have h1 : pyGetItem (Json.obj [("name", Json.str c)]) "name"
        = Except.ok (Json.str c) := rfl
    simp [extractNamesList, h1, ih]

/-- Extracting the cells of a well-formed row. -/
lemma extractItemsList_wf (r : List String) :
    extractItemsList (r.map (fun v => Json.obj [("colValue", Json.str v)]))
      = Except.ok (r.map Json.str) := by
  induction r with
  | nil => rfl
  | cons v rest ih =>
    have h1 : pyGetItem (Json.obj [("colValue", Json.str v)]) "colValue"
        = Except.ok (Json.str v) := rfl
    simp [extractItemsList, h1, ih]

/-- Extracting all rows of a well-formed rows list. -/
lemma extractRowsList_wf (rows : List (List String)) :
    extractRowsList (rows.map
        (fun r => Json.arr (r.map (fun v => Json.obj [("colValue", Json.str v)]))))
      = Except.ok (rows.map (fun r => r.map Json.str)) := by
  induction rows with
  | nil => rfl
  | cons r rest ih =>
    simp [extractRowsList, extractRow, pyIter, extractItemsList_wf, ih]

/-- Schema and row extraction on a well-formed SQL-result response. -/
lemma extractTable_wf (cols : List String) (rows : List (List String)) :
    extractTable (sqlResultJson cols rows)
      = Except.ok (cols.map Json.str, rows.map (fun r => r.map Json.str)) := by
  have h1 : pyGetItem (sqlResultJson cols rows) "schema"
      = Except.ok (Json.arr (cols.map (fun c => Json.obj [("name", Json.str c)]))) := rfl
  have h2 : pyGetItem (sqlResultJson cols rows) "rows"
      = Except.ok (Json.arr (rows.map
          (fun r => Json.arr (r.map (fun v => Json.obj [("colValue", Json.str v)]))))) := rfl
  simp [extractTable, h1, h2, extractNames, extractRows, pyIter,
    extractNamesList_wf, extractRowsList_wf]

/-- Claim C7: on a successful SQL-result response with a well-formed schema
and `n` rows, `run_sql` returns a text table whose lines are a header row, a
separator and the first `min n 10` data rows, and appends the
`*Showing 10 of n rows*` note (mentioning `n` and 10) exactly when
`n > 10`. -/
theorem run_sql_table_shape (sql : String) (cols : List String)
    (rows : List (List String)) (hrect : ∀ r ∈ rows, r.length = cols.length) :
    run_sql_post sql (CallResult.success (sqlResultJson cols rows))
      = Except.ok (ToolOutput.textOut
          ("Results for: `" ++ sql ++ "`\n\n"
            ++ toMarkdownPresto cols (rows.take 10)
            ++ (if 10 < rows.length then truncNote rows.length else "")))
    ∧ (rows.take 10).length = min rows.length 10 := by
  constructor
  · unfold run_sql_post
    dsimp only
    rw [extractTable_wf]
    dsimp only
    have hall : ((rows.map (fun r => r.map Json.str)).all
        (fun r => r.length = (cols.map Json.str).length)) = true := by
      simp only [List.all_eq_true, List.mem_map, decide_eq_true_eq, List.length_map,
        forall_exists_index, and_imp]
      intro r' r hr hEq
      subst hEq
      simp [List.length_map, hrect r hr]
    rw [if_pos hall]
    have hcols : (cols.map Json.str).map pyStr = cols := by
      simp [List.map_map, Function.comp_def, pyStr]
    have hrows : (rows.map (fun r => r.map Json.str)).map (fun r => r.map pyStr)
        = rows := by
      simp [List.map_map, Function.comp_def, pyStr]
    simp [hcols, hrows, List.length_map]
  · rw [List.length_take, Nat.min_comm]

/-- Substring containment over the character list of a string (used only to
state, decidably, that the truncation note mentions the row counts). -/
def strContains (s pat : String) : Bool :=
  (List.range (s.data.length + 1)).any
    (fun i => ((s.data.drop i).take pat.data.length) == pat.data)

/-- The mock schema `[{"name":"a"},{"name":"b"}]` of the spec's tabular
test. -/
def colsABX : List String := ["a", "b"]

/-- Twelve mock rows. -/
def rows12X : List (List String) := List.replicate 12 ["1", "2"]

/-- Witness for C7: the spec's mock — schema `a`,`b` and 12 rows — yields a
header row, exactly 10 data rows and a note mentioning "12" and "10". -/
theorem run_sql_table_shape_witness :
    (∀ r ∈ rows12X, r.length = colsABX.length)
    ∧ (run_sql_post "select 1" (CallResult.success (sqlResultJson colsABX rows12X))
        = Except.ok (ToolOutput.textOut
            ("Results for: `" ++ "select 1" ++ "`\n\n"
              ++ toMarkdownPresto colsABX (rows12X.take 10)
              ++ (if 10 < rows12X.length then truncNote rows12X.length else "")))
      ∧ (rows12X.take 10).length = min rows12X.length 10)
    ∧ (rows12X.take 10).length = 10
    ∧ strContains (truncNote rows12X.length) "12" = true
    ∧ strContains (truncNote rows12X.length) "10" = true :=
  ⟨by decide, run_sql_table_shape "select 1" colsABX rows12X (by decide),
   by decide, by decide, by decide⟩

/-- Mapping the `for r in rules` loop over a list of rule dictionaries never
raises and reshapes each dictionary in order. -/
lemma formatRules_objs (rs : List (List (String × Json))) :
    formatRules (rs.map Json.obj) = Except.ok (rs.map ruleObj) := by
  induction rs with
  | nil => rfl
  | cons fs rest ih => simp [formatRules, formatRule, ih]

/-- Claim C8: for every successful rules response, `get_rules_by_dataset`
returns, for a non-empty list, `{"success": true, "data": [...]}` with each
`{ruleNm, ruleValue, ruleType, points}` mapped in order to
`{"name", "sql", "type", "points"}`, and for an empty list an object with
`success` true and a no-rules message — `message` field present, `data`
field absent. -/
theorem get_rules_shape (dataset : String) (rs : List (List (String × Json))) :
    get_rules_post dataset (CallResult.success (Json.arr (rs.map Json.obj)))
      = Except.ok (ToolOutput.jsonOut
          (if rs.isEmpty then
            Json.obj [("success", Json.bool true),
                      ("message", Json.str ("No rules found for dataset: " ++ dataset))]
          else
            Json.obj [("success", Json.bool true),
                      ("data", Json.arr (rs.map ruleObj))]))
    ∧ (Json.obj [("success", Json.bool true),
          ("message", Json.str ("No rules found for dataset: " ++ dataset))]).getField
        "message" = some (Json.str ("No rules found for dataset: " ++ dataset))
    ∧ (Json.obj [("success", Json.bool true),
          ("message", Json.str ("No rules found for dataset: " ++ dataset))]).getField
        "data" = none := by
  refine ⟨?_, rfl, rfl⟩
  rcases rs with _ | ⟨fs, rest⟩
  · rfl
  · have h1 : pyFalsy (Json.arr (Json.obj fs :: rest.map Json.obj)) = false := rfl
    have h2 : pyIter (Json.arr (Json.obj fs :: rest.map Json.obj))
        = Except.ok (Json.obj fs :: rest.map Json.obj) := rfl
    have h3 : formatRules (Json.obj fs :: rest.map Json.obj)
        = Except.ok (ruleObj fs :: rest.map ruleObj) := by
      simpa using formatRules_objs (fs :: rest)
    simp [get_rules_post, h1, h2, h3]

/-- The rules list of the spec's example. -/
def ruleFieldsX : List (String × Json) :=
  [("ruleNm", Json.str "r1"), ("ruleValue", Json.str "select 1"),
   ("ruleType", Json.str "SQLF"), ("points", Json.num 5)]

/-- Witness for C8: the spec's one-rule example and the empty list. -/
theorem get_rules_shape_witness :
    (get_rules_post "d1" (CallResult.success (Json.arr ([ruleFieldsX].map Json.obj)))
      = Except.ok (ToolOutput.jsonOut
          (if [ruleFieldsX].isEmpty then
            Json.obj [("success", Json.bool true),
                      ("message", Json.str ("No rules found for dataset: " ++ "d1"))]
          else
            Json.obj [("success", Json.bool true),
                      ("data", Json.arr ([ruleFieldsX].map ruleObj))]))
      ∧ (Json.obj [("success", Json.bool true),
            ("message", Json.str ("No rules found for dataset: " ++ "d1"))]).getField
          "message" = some (Json.str ("No rules found for dataset: " ++ "d1"))
      ∧ (Json.obj [("success", Json.bool true),
            ("message", Json.str ("No rules found for dataset: " ++ "d1"))]).getField
          "data" = none)
    ∧ get_rules_post "d2" (CallResult.success (Json.arr (([] : List (List (String × Json))).map Json.obj)))
        = Except.ok (ToolOutput.jsonOut
            (if ([] : List (List (String × Json))).isEmpty then
              Json.obj [("success", Json.bool true),
                        ("message", Json.str ("No rules found for dataset: " ++ "d2"))]
            else
              Json.obj [("success", Json.bool true),
                        ("data", Json.arr (([] : List (List (String × Json))).map ruleObj))]))
    ∧ ruleObj ruleFieldsX
        = Json.obj [("name", Json.str "r1"), ("sql", Json.str "select 1"),
                    ("type", Json.str "SQLF"), ("points", Json.num 5)] :=
  ⟨get_rules_shape "d1" [ruleFieldsX], (get_rules_shape "d2" []).1, rfl⟩

/-- Claim C10: `run_dq_job` issues the job-run call only after a successful
registration: on a registration failure it returns
`{"success": false, "error": "Registration failed: <err>"}` and never
issues `POST /v3/jobs/run`; on a successful registration it issues exactly
the registration call followed by the job-run call and returns the job-run
result unchanged. -/
theorem run_dq_job_registration_gate (dataset runId sql cxn : String)
    (regResult runResult : CallResult) :
    (∀ e, regResult = CallResult.failure e →
      (run_dq_job dataset runId sql cxn regResult runResult).1
        = ToolOutput.jsonOut (Json.obj
            [("success", Json.bool false),
             ("error", Json.str ("Registration failed: " ++ e))])
      ∧ ∀ call ∈ (run_dq_job dataset runId sql cxn regResult runResult).2,
          call.endpoint ≠ "/v3/jobs/run")
    ∧ (∀ d, regResult = CallResult.success d →
      (run_dq_job dataset runId sql cxn regResult runResult).2
        = [regCall dataset runId sql cxn, jobRunCall dataset runId]
      ∧ (run_dq_job dataset runId sql cxn regResult runResult).1
        = ToolOutput.jsonOut runResult.toJson) := by
  constructor
  · intro e he
    subst he
    refine ⟨rfl, ?_⟩
    intro call hc
    have hcall : call = regCall dataset runId sql cxn := by
      simpa [run_dq_job] using hc
    rw [hcall]
    simp [regCall]
  · intro d hd
    subst hd
    exact ⟨rfl, rfl⟩

/-- Witness for C10: a failed registration blocks the job-run call; a
successful one issues it. -/
theorem run_dq_job_registration_gate_witness :
    ((run_dq_job "ds" "2025-01-23" "select 1" "BIGQUERY"
        (CallResult.failure "boom") (CallResult.success Json.null)).1
      = ToolOutput.jsonOut (Json.obj
          [("success", Json.bool false),
           ("error", Json.str ("Registration failed: " ++ "boom"))])
    ∧ ∀ call ∈ (run_dq_job "ds" "2025-01-23" "select 1" "BIGQUERY"
        (CallResult.failure "boom") (CallResult.success Json.null)).2,
        call.endpoint ≠ "/v3/jobs/run")
    ∧ ((run_dq_job "ds" "2025-01-23" "select 1" "BIGQUERY"
        (CallResult.success Json.null) (CallResult.success (Json.str "ran"))).2
      = [regCall "ds" "2025-01-23" "select 1" "BIGQUERY", jobRunCall "ds" "2025-01-23"]
    ∧ (run_dq_job "ds" "2025-01-23" "select 1" "BIGQUERY"
        (CallResult.success Json.null) (CallResult.success (Json.str "ran"))).1
      = ToolOutput.jsonOut (CallResult.success (Json.str "ran")).toJson) :=
  ⟨(run_dq_job_registration_gate "ds" "2025-01-23" "select 1" "BIGQUERY"
      (CallResult.failure "boom") (CallResult.success Json.null)).1 "boom" rfl,
   (run_dq_job_registration_gate "ds" "2025-01-23" "select 1" "BIGQUERY"
      (CallResult.success Json.null) (CallResult.success (Json.str "ran"))).2
      Json.null rfl⟩

end CdqMcp
